import Mathlib

/-!
# The `init` command of uzp-cli (`cmd/init.go`)

A shallow embedding of `initCmd.RunE`.  The command talks to three
collaborators that are not part of the file: the process-wide `vault`
handle (`vault.Exists`, `vault.Initialize`), the terminal
(`term.ReadPassword`) and standard output (`fmt.Print`, `fmt.Println`).
They are taken as parameters (`World`), every interaction is recorded in
an event trace, and the two byte buffers the command holds are reported
as they are when the command returns.
-/

namespace Uzp

/-- One byte of a Go `[]byte` or `string`. -/
abbrev Byte := Fin 256

/-- A Go `error` value: `errorString` is what `fmt.Errorf` builds from a
format without `%w`, `wrapError` what it builds from a format with `%w`
(the formatted message together with the wrapped error). -/
inductive GoError where
  | errorString (s : String)
  | wrapError (msg : String) (err : GoError)
  deriving DecidableEq, Repr

namespace GoError

/-- The method `Error()`: the message of an error. -/
def Error : GoError → String
  | errorString s => s
  | wrapError msg _ => msg

/-- The method `Unwrap()` as used by `errors.Unwrap`: the wrapped error, if any. -/
def Unwrap : GoError → Option GoError
  | errorString _ => none
  | wrapError _ err => some err

end GoError

/-- The call `fmt.Errorf(format)` for a format without verbs. -/
def Errorf (format : String) : GoError :=
  GoError.errorString format

/-- The call `fmt.Errorf(lead + "%w", err)`: the message is `lead` followed by
`err.Error()`, and the result wraps `err`. -/
def ErrorfW (lead : String) (err : GoError) : GoError :=
  GoError.wrapError (lead ++ err.Error) err

/-- What `term.ReadPassword` returns: a byte slice and an error (`none` is `nil`). -/
structure ReadResult where
  buf : List Byte
  err : Option GoError
  deriving DecidableEq, Repr

/-- The vault subsystem as the command sees it. -/
structure Vault where
  /-- The result of `vault.Exists()`. -/
  Exists : Bool
  /-- The result of `vault.Initialize(password)`; `none` is `nil`. -/
  Initialize : List Byte → Option GoError

/-- Everything outside the command: the vault and the terminal.
`ReadPassword n` is what the call of `term.ReadPassword` made after `n`
earlier calls returns. -/
structure World where
  vault : Vault
  ReadPassword : Nat → ReadResult

/-- The observable interactions of the command, in program order. -/
inductive Event where
  | callExists
  | print (s : String)
  | callReadPassword
  | callInitialize (password : List Byte)
  deriving DecidableEq, Repr

/-- The state of a run at the moment the command returns. -/
structure Outcome where
  /-- The returned error; `none` is `nil`. -/
  err : Option GoError
  /-- The interactions performed, oldest first. -/
  trace : List Event
  /-- Contents of the slice `password`, once it has been assigned. -/
  password : Option (List Byte)
  /-- Contents of the slice `confirmPassword`, once it has been assigned. -/
  confirmPassword : Option (List Byte)
  deriving DecidableEq, Repr

/-- The loop `for i := range b { b[i] = 0 }`. -/
def clearLoop (b : List Byte) : List Byte :=
  (List.range b.length).foldl (fun acc i => acc.set i 0) b

/-- The function `initCmd.RunE`. -/
def RunE (w : World) : Outcome :=
  let t0 := [Event.callExists]
  if w.vault.Exists then
    { err := some (Errorf "vault already exists"), trace := t0,
      password := none, confirmPassword := none }
  else
    let t1 := t0 ++ [Event.print "Enter master password: ", Event.callReadPassword]
    let r1 := w.ReadPassword 0
    let password := r1.buf
    match r1.err with
    | some e =>
      { err := some (ErrorfW "failed to read password: " e), trace := t1,
        password := some password, confirmPassword := none }
    | none =>
      let t2 := t1 ++ [Event.print "\n", Event.print "Confirm master password: ",
                        Event.callReadPassword]
      let r2 := w.ReadPassword 1
      let confirmPassword := r2.buf
      match r2.err with
      | some e =>
        { err := some (ErrorfW "failed to read password: " e), trace := t2,
          password := some password, confirmPassword := some confirmPassword }
      | none =>
        let t3 := t2 ++ [Event.print "\n"]
        if password ≠ confirmPassword then
          { err := some (Errorf "passwords do not match"), trace := t3,
            password := some password, confirmPassword := some confirmPassword }
        else if password.length < 8 then
          { err := some (Errorf "password must be at least 8 characters long"), trace := t3,
            password := some password, confirmPassword := some confirmPassword }
        else
          let t4 := t3 ++ [Event.callInitialize password]
          match w.vault.Initialize password with
          | some e =>
            { err := some (ErrorfW "failed to initialize vault: " e), trace := t4,
              password := some password, confirmPassword := some confirmPassword }
          | none =>
            let t5 := t4 ++ [Event.print "Vault initialized successfully!\n",
                              Event.print "Vault is ready to use.\n"]
            { err := none, trace := t5,
              password := some (clearLoop password),
              confirmPassword := some (clearLoop confirmPassword) }

/-- The arguments of the calls of `vault.Initialize` in a trace, oldest first. -/
def initializeCalls : List Event → List (List Byte)
  | [] => []
  | Event.callInitialize p :: t => p :: initializeCalls t
  | _ :: t => initializeCalls t

/-- The number of calls of `term.ReadPassword` in a trace. -/
def readCalls (t : List Event) : Nat :=
  t.count Event.callReadPassword

/-- The chunks written to standard output in a trace, oldest first. -/
def printed : List Event → List String
  | [] => []
  | Event.print s :: t => s :: printed t
  | _ :: t => printed t

/-- A world given by its four observable answers. -/
def mkWorld (ex : Bool) (r1 r2 : ReadResult) (ini : List Byte → Option GoError) : World :=
  { vault := { Exists := ex, Initialize := ini },
    ReadPassword := fun n => if n = 0 then r1 else r2 }

/-- The conditions under which the command reaches the call of `vault.Initialize`. -/
def reachesInitialize (w : World) : Prop :=
  w.vault.Exists = false ∧ (w.ReadPassword 0).err = none ∧ (w.ReadPassword 1).err = none ∧
  (w.ReadPassword 0).buf = (w.ReadPassword 1).buf ∧ 8 ≤ (w.ReadPassword 0).buf.length

/-! ## Sample inputs -/

/-- The bytes of `abc`. -/
def pwAbc : List Byte := [97, 98, 99]

/-- The bytes of `abd`. -/
def pwAbd : List Byte := [97, 98, 100]

/-- The bytes of `abcdefg`, seven bytes. -/
def pw7 : List Byte := [97, 98, 99, 100, 101, 102, 103]

/-- The bytes of `abcdefgh`, eight bytes. -/
def pw8 : List Byte := [97, 98, 99, 100, 101, 102, 103, 104]

/-- The error `io.EOF`, as an example of what a collaborator returns. -/
def errEOF : GoError := GoError.errorString "EOF"

/-- A successful read of the given bytes. -/
def readOk (b : List Byte) : ReadResult := { buf := b, err := none }

/-- A failed read. -/
def readErr (e : GoError) : ReadResult := { buf := [], err := some e }

/-- The bytes of seven copies of U+00E9 (e with acute accent), each encoded in
UTF-8 as the two bytes 0xC3 0xA9: seven characters, fourteen bytes. -/
def pwAccents : List Byte :=
  [195, 169, 195, 169, 195, 169, 195, 169, 195, 169, 195, 169, 195, 169]

/-- The number of Unicode code points of UTF-8 text: every code point is encoded
as one leading byte followed by continuation bytes of the form `10xxxxxx`, so
it is the number of bytes outside the range 0x80..0xBF. -/
def codePoints (b : List Byte) : Nat :=
  (b.filter (fun x => x.val / 64 ≠ 2)).length

/-- The first line of the success message, as written by `fmt.Println`. -/
def lineInitialized : String := "Vault initialized successfully!\n"

/-- The second line of the success message, as written by `fmt.Println`. -/
def lineReady : String := "Vault is ready to use.\n"

/-! ## Auxiliary facts -/

theorem clearLoop_prefix_length (n : Nat) (b : List Byte) :
    ((List.range n).foldl (fun acc i => acc.set i 0) b).length = b.length := by
  induction n with
  | zero => simp
  | succ k ih => rw [List.range_succ, List.foldl_append]; simpa using ih

theorem clearLoop_prefix_getElem? (n : Nat) (b : List Byte) (i : Nat) :
    ((List.range n).foldl (fun acc i => acc.set i 0) b)[i]? =
      if i < n then b[i]?.map (fun _ => (0 : Byte)) else b[i]? := by
  induction n with
  | zero => simp
  | succ k ih =>
    rw [List.range_succ, List.foldl_append]
    simp only [List.foldl_cons, List.foldl_nil, List.getElem?_set, clearLoop_prefix_length]
    by_cases hik : k = i
    · subst hik
      by_cases hlen : k < b.length
      · simp [hlen]
      · simp [hlen, List.getElem?_eq_none (Nat.le_of_not_lt hlen)]
    · rw [if_neg hik, ih]
      by_cases hlt : i < k
      · simp [hlt, Nat.lt_succ_of_lt hlt]
      · have : ¬ i < k + 1 := by omega
        simp [hlt, this]

/-- The clearing loop keeps the length of the slice and leaves every byte 0. -/
theorem clearLoop_eq_replicate (b : List Byte) :
    clearLoop b = List.replicate b.length 0 := by
  apply List.ext_getElem?
  intro i
  unfold clearLoop
  rw [clearLoop_prefix_getElem?]
  by_cases h : i < b.length
  · simp [h, List.getElem?_replicate]
  · simp [h, List.getElem?_replicate, List.getElem?_eq_none (Nat.le_of_not_lt h)]

/-- A message that starts with the lead of the initialization failure is not the
message of the length check. -/
theorem initialize_message_ne_length_message (s : String) :
    "failed to initialize vault: " ++ s ≠ "password must be at least 8 characters long" := by
  intro h
  have hd := congrArg String.data h
  rw [String.data_append] at hd
  have hh := congrArg List.head? hd
  simp at hh

/-! ## The paths of `RunE` -/

theorem RunE_exists (w : World) (h : w.vault.Exists = true) :
    RunE w = { err := some (Errorf "vault already exists"), trace := [Event.callExists],
               password := none, confirmPassword := none } := by
  simp [RunE, h]

theorem RunE_first_read_fails (w : World) (e : GoError) (h0 : w.vault.Exists = false)
    (h1 : (w.ReadPassword 0).err = some e) :
    RunE w = { err := some (ErrorfW "failed to read password: " e),
               trace := [Event.callExists, Event.print "Enter master password: ",
                         Event.callReadPassword],
               password := some (w.ReadPassword 0).buf, confirmPassword := none } := by
  simp [RunE, h0, h1]

theorem RunE_second_read_fails (w : World) (e : GoError) (h0 : w.vault.Exists = false)
    (h1 : (w.ReadPassword 0).err = none) (h2 : (w.ReadPassword 1).err = some e) :
    RunE w = { err := some (ErrorfW "failed to read password: " e),
               trace := [Event.callExists, Event.print "Enter master password: ",
                         Event.callReadPassword, Event.print "\n",
                         Event.print "Confirm master password: ", Event.callReadPassword],
               password := some (w.ReadPassword 0).buf,
               confirmPassword := some (w.ReadPassword 1).buf } := by
  simp [RunE, h0, h1, h2]

theorem RunE_mismatch (w : World) (h0 : w.vault.Exists = false)
    (h1 : (w.ReadPassword 0).err = none) (h2 : (w.ReadPassword 1).err = none)
    (hne : (w.ReadPassword 0).buf ≠ (w.ReadPassword 1).buf) :
    RunE w = { err := some (Errorf "passwords do not match"),
               trace := [Event.callExists, Event.print "Enter master password: ",
                         Event.callReadPassword, Event.print "\n",
                         Event.print "Confirm master password: ", Event.callReadPassword,
                         Event.print "\n"],
               password := some (w.ReadPassword 0).buf,
               confirmPassword := some (w.ReadPassword 1).buf } := by
  simp [RunE, h0, h1, h2, hne]

theorem RunE_too_short (w : World) (h0 : w.vault.Exists = false)
    (h1 : (w.ReadPassword 0).err = none) (h2 : (w.ReadPassword 1).err = none)
    (heq : (w.ReadPassword 0).buf = (w.ReadPassword 1).buf)
    (hlen : (w.ReadPassword 0).buf.length < 8) :
    RunE w = { err := some (Errorf "password must be at least 8 characters long"),
               trace := [Event.callExists, Event.print "Enter master password: ",
                         Event.callReadPassword, Event.print "\n",
                         Event.print "Confirm master password: ", Event.callReadPassword,
                         Event.print "\n"],
               password := some (w.ReadPassword 0).buf,
               confirmPassword := some (w.ReadPassword 1).buf } := by
  have hlen2 : (w.ReadPassword 1).buf.length < 8 := heq ▸ hlen
  simp [RunE, h0, h1, h2, heq, hlen2]

theorem RunE_initialize_fails (w : World) (e : GoError) (h0 : w.vault.Exists = false)
    (h1 : (w.ReadPassword 0).err = none) (h2 : (w.ReadPassword 1).err = none)
    (heq : (w.ReadPassword 0).buf = (w.ReadPassword 1).buf)
    (hlen : 8 ≤ (w.ReadPassword 0).buf.length)
    (hini : w.vault.Initialize (w.ReadPassword 0).buf = some e) :
    RunE w = { err := some (ErrorfW "failed to initialize vault: " e),
               trace := [Event.callExists, Event.print "Enter master password: ",
                         Event.callReadPassword, Event.print "\n",
                         Event.print "Confirm master password: ", Event.callReadPassword,
                         Event.print "\n", Event.callInitialize (w.ReadPassword 0).buf],
               password := some (w.ReadPassword 0).buf,
               confirmPassword := some (w.ReadPassword 1).buf } := by
  have hlen2 : ¬ (w.ReadPassword 1).buf.length < 8 := by rw [← heq]; omega
  have hini2 : w.vault.Initialize (w.ReadPassword 1).buf = some e := heq ▸ hini
  simp [RunE, h0, h1, h2, heq, hlen2, hini2]

theorem RunE_success (w : World) (h0 : w.vault.Exists = false)
    (h1 : (w.ReadPassword 0).err = none) (h2 : (w.ReadPassword 1).err = none)
    (heq : (w.ReadPassword 0).buf = (w.ReadPassword 1).buf)
    (hlen : 8 ≤ (w.ReadPassword 0).buf.length)
    (hini : w.vault.Initialize (w.ReadPassword 0).buf = none) :
    RunE w = { err := none,
               trace := [Event.callExists, Event.print "Enter master password: ",
                         Event.callReadPassword, Event.print "\n",
                         Event.print "Confirm master password: ", Event.callReadPassword,
                         Event.print "\n", Event.callInitialize (w.ReadPassword 0).buf,
                         Event.print "Vault initialized successfully!\n",
                         Event.print "Vault is ready to use.\n"],
               password := some (clearLoop (w.ReadPassword 0).buf),
               confirmPassword := some (clearLoop (w.ReadPassword 1).buf) } := by
  have hlen2 : ¬ (w.ReadPassword 1).buf.length < 8 := by rw [← heq]; omega
  have hini2 : w.vault.Initialize (w.ReadPassword 1).buf = none := heq ▸ hini
  simp [RunE, h0, h1, h2, heq, hlen2, hini2]

/-- Every run takes exactly one of the seven paths. -/
theorem RunE_cases (w : World) :
    w.vault.Exists = true ∨
    (w.vault.Exists = false ∧ ∃ e, (w.ReadPassword 0).err = some e) ∨
    (w.vault.Exists = false ∧ (w.ReadPassword 0).err = none ∧
      ∃ e, (w.ReadPassword 1).err = some e) ∨
    (w.vault.Exists = false ∧ (w.ReadPassword 0).err = none ∧ (w.ReadPassword 1).err = none ∧
      (w.ReadPassword 0).buf ≠ (w.ReadPassword 1).buf) ∨
    (w.vault.Exists = false ∧ (w.ReadPassword 0).err = none ∧ (w.ReadPassword 1).err = none ∧
      (w.ReadPassword 0).buf = (w.ReadPassword 1).buf ∧ (w.ReadPassword 0).buf.length < 8) ∨
    (reachesInitialize w ∧ ∃ e, w.vault.Initialize (w.ReadPassword 0).buf = some e) ∨
    (reachesInitialize w ∧ w.vault.Initialize (w.ReadPassword 0).buf = none) := by
  unfold reachesInitialize
  cases h0 : w.vault.Exists with
  | true => exact Or.inl rfl
  | false =>
    cases h1 : (w.ReadPassword 0).err with
    | some e => exact Or.inr (Or.inl ⟨rfl, e, rfl⟩)
    | none =>
      cases h2 : (w.ReadPassword 1).err with
      | some e => exact Or.inr (Or.inr (Or.inl ⟨rfl, rfl, e, rfl⟩))
      | none =>
        by_cases heq : (w.ReadPassword 0).buf = (w.ReadPassword 1).buf
        · by_cases hlen : (w.ReadPassword 0).buf.length < 8
          · exact Or.inr (Or.inr (Or.inr (Or.inr (Or.inl ⟨rfl, rfl, rfl, heq, hlen⟩))))
          · have hge : 8 ≤ (w.ReadPassword 0).buf.length := Nat.le_of_not_lt hlen
            cases hini : w.vault.Initialize (w.ReadPassword 0).buf with
            | some e =>
              exact Or.inr (Or.inr (Or.inr (Or.inr (Or.inr (Or.inl
                ⟨⟨rfl, rfl, rfl, heq, hge⟩, e, rfl⟩)))))
            | none =>
              exact Or.inr (Or.inr (Or.inr (Or.inr (Or.inr (Or.inr
                ⟨⟨rfl, rfl, rfl, heq, hge⟩, rfl⟩)))))
        · exact Or.inr (Or.inr (Or.inr (Or.inl ⟨rfl, rfl, rfl, heq⟩)))

/-- The calls of `vault.Initialize` made by a run. -/
theorem initializeCalls_RunE (w : World) [Decidable (reachesInitialize w)] :
    initializeCalls (RunE w).trace =
      if reachesInitialize w then [(w.ReadPassword 0).buf] else [] := by
  rcases RunE_cases w with h | ⟨h0, e, h1⟩ | ⟨h0, h1, e, h2⟩ | ⟨h0, h1, h2, hne⟩ |
    ⟨h0, h1, h2, heq, hlen⟩ | ⟨hr, e, hini⟩ | ⟨hr, hini⟩
  · rw [RunE_exists w h, if_neg (by simp [reachesInitialize, h])]; rfl
  · rw [RunE_first_read_fails w e h0 h1, if_neg (by simp [reachesInitialize, h1])]; rfl
  · rw [RunE_second_read_fails w e h0 h1 h2, if_neg (by simp [reachesInitialize, h2])]; rfl
  · rw [RunE_mismatch w h0 h1 h2 hne, if_neg (by simp [reachesInitialize, hne])]; rfl
  · rw [RunE_too_short w h0 h1 h2 heq hlen,
      if_neg (by simp only [reachesInitialize]; omega)]; rfl
  · rw [RunE_initialize_fails w e hr.1 hr.2.1 hr.2.2.1 hr.2.2.2.1 hr.2.2.2.2 hini, if_pos hr]; rfl
  · rw [RunE_success w hr.1 hr.2.1 hr.2.2.1 hr.2.2.2.1 hr.2.2.2.2 hini, if_pos hr]; rfl

/-! ## The claims -/

/-- C1: when `vault.Exists()` is true the command returns the error
"vault already exists", performs no terminal read, prints nothing and never
calls `vault.Initialize`. -/
theorem C1_existing_vault_refused (w : World) (h : w.vault.Exists = true) :
    (RunE w).err = some (Errorf "vault already exists") ∧
    (RunE w).err.map GoError.Error = some "vault already exists" ∧
    readCalls (RunE w).trace = 0 ∧
    initializeCalls (RunE w).trace = [] ∧
    (RunE w).password = none ∧ (RunE w).confirmPassword = none := by
  rw [RunE_exists w h]
  simp [Errorf, GoError.Error, readCalls, initializeCalls]

theorem C1_existing_vault_refused_witness :
    (mkWorld true (readOk pw8) (readOk pw8) (fun _ => none)).vault.Exists = true ∧
    (RunE (mkWorld true (readOk pw8) (readOk pw8) (fun _ => none))).err.map GoError.Error
      = some "vault already exists" ∧
    initializeCalls (RunE (mkWorld true (readOk pw8) (readOk pw8) (fun _ => none))).trace = [] :=
  have h := C1_existing_vault_refused (mkWorld true (readOk pw8) (readOk pw8) (fun _ => none)) rfl
  ⟨rfl, h.2.1, h.2.2.2.1⟩

/-- C3: with no vault present and both reads succeeding, entries that differ
(in any byte or in length) make the command return "passwords do not match"
without calling `vault.Initialize`, whatever their lengths; the error is never
the one of the length check. -/
theorem C3_mismatch_refused (w : World) (h0 : w.vault.Exists = false)
    (h1 : (w.ReadPassword 0).err = none) (h2 : (w.ReadPassword 1).err = none)
    (hne : (w.ReadPassword 0).buf ≠ (w.ReadPassword 1).buf) :
    (RunE w).err = some (Errorf "passwords do not match") ∧
    (RunE w).err.map GoError.Error = some "passwords do not match" ∧
    (RunE w).err.map GoError.Error ≠ some "password must be at least 8 characters long" ∧
    initializeCalls (RunE w).trace = [] := by
  rw [RunE_mismatch w h0 h1 h2 hne]
  refine ⟨rfl, rfl, ?_, ?_⟩
  · simp only [Errorf, GoError.Error, Option.map_some', ne_eq, Option.some.injEq]
    decide
  · simp [initializeCalls]

theorem C3_mismatch_refused_witness :
    (readOk pwAbc).buf ≠ (readOk pw7).buf ∧ pwAbc.length < 8 ∧ pw7.length < 8 ∧
    (RunE (mkWorld false (readOk pwAbc) (readOk pw7) (fun _ => none))).err.map GoError.Error
      = some "passwords do not match" ∧
    initializeCalls (RunE (mkWorld false (readOk pwAbc) (readOk pw7) (fun _ => none))).trace
      = [] :=
  have h := C3_mismatch_refused (mkWorld false (readOk pwAbc) (readOk pw7) (fun _ => none))
    rfl rfl rfl (by decide)
  ⟨by decide, by decide, by decide, h.2.1, h.2.2.2⟩

/-- C7: on the success path (no vault, both reads succeed, the entries are equal
and at least 8 bytes long, `vault.Initialize` returns nil) the command returns
nil and both buffers keep their lengths with every byte 0. -/
theorem C7_success_clears_buffers (w : World) (h0 : w.vault.Exists = false)
    (h1 : (w.ReadPassword 0).err = none) (h2 : (w.ReadPassword 1).err = none)
    (heq : (w.ReadPassword 0).buf = (w.ReadPassword 1).buf)
    (hlen : 8 ≤ (w.ReadPassword 0).buf.length)
    (hini : w.vault.Initialize (w.ReadPassword 0).buf = none) :
    (RunE w).err = none ∧
    (RunE w).password = some (List.replicate (w.ReadPassword 0).buf.length 0) ∧
    (RunE w).confirmPassword = some (List.replicate (w.ReadPassword 1).buf.length 0) := by
  rw [RunE_success w h0 h1 h2 heq hlen hini]
  simp [clearLoop_eq_replicate]

theorem C7_success_clears_buffers_witness :
    (RunE (mkWorld false (readOk pw8) (readOk pw8) (fun _ => none))).err = none ∧
    (RunE (mkWorld false (readOk pw8) (readOk pw8) (fun _ => none))).password
      = some [0, 0, 0, 0, 0, 0, 0, 0] ∧
    (RunE (mkWorld false (readOk pw8) (readOk pw8) (fun _ => none))).confirmPassword
      = some [0, 0, 0, 0, 0, 0, 0, 0] :=
  C7_success_clears_buffers (mkWorld false (readOk pw8) (readOk pw8) (fun _ => none))
    rfl rfl rfl rfl (by decide) rfl

/-- C5: `vault.Initialize` is called at most once; it is called exactly when
`vault.Exists()` returned false, both reads succeeded, the two entries are equal
byte for byte and the entry is at least 8 bytes long; and its argument is then
the byte sequence of the first entry, unchanged. -/
theorem C5_initialize_called_once_iff (w : World) :
    (initializeCalls (RunE w).trace).length ≤ 1 ∧
    (initializeCalls (RunE w).trace ≠ [] ↔
      (w.vault.Exists = false ∧ (w.ReadPassword 0).err = none ∧
        (w.ReadPassword 1).err = none ∧ (w.ReadPassword 0).buf = (w.ReadPassword 1).buf ∧
        8 ≤ (w.ReadPassword 0).buf.length)) ∧
    (∀ p ∈ initializeCalls (RunE w).trace, p = (w.ReadPassword 0).buf) := by
  classical
  rw [initializeCalls_RunE w]
  by_cases hr : reachesInitialize w
  · rw [if_pos hr]
    exact ⟨by simp, ⟨fun _ => hr, fun _ => by simp⟩, by simp⟩
  · rw [if_neg hr]
    exact ⟨by simp, ⟨fun h => absurd rfl h, fun h => absurd h hr⟩, by simp⟩

/-- C6: whenever the call of `vault.Initialize` made by the command returns an
error `e`, the command returns a non-nil error whose message is
"failed to initialize vault: " followed by the message of `e` and whose
`Unwrap` is `e`, and the whole output of the run is the two prompts, each
followed by a newline: nothing of the success message is written. -/
theorem C6_initialize_error_wrapped (w : World) (p : List Byte) (e : GoError)
    (hp : p ∈ initializeCalls (RunE w).trace) (hini : w.vault.Initialize p = some e) :
    (RunE w).err ≠ none ∧
    (RunE w).err.map GoError.Error = some ("failed to initialize vault: " ++ e.Error) ∧
    (RunE w).err.bind GoError.Unwrap = some e ∧
    printed (RunE w).trace =
      ["Enter master password: ", "\n", "Confirm master password: ", "\n"] := by
  classical
  rw [initializeCalls_RunE w] at hp
  by_cases hr : reachesInitialize w
  · rw [if_pos hr, List.mem_singleton] at hp
    subst hp
    rw [RunE_initialize_fails w e hr.1 hr.2.1 hr.2.2.1 hr.2.2.2.1 hr.2.2.2.2 hini]
    exact ⟨by simp, rfl, rfl, rfl⟩
  · rw [if_neg hr] at hp
    exact absurd hp (List.not_mem_nil p)

theorem C6_initialize_error_wrapped_witness :
    (RunE (mkWorld false (readOk pw8) (readOk pw8) (fun _ => some errEOF))).err.map GoError.Error
      = some "failed to initialize vault: EOF" ∧
    (RunE (mkWorld false (readOk pw8) (readOk pw8) (fun _ => some errEOF))).err.bind
      GoError.Unwrap = some errEOF ∧
    printed (RunE (mkWorld false (readOk pw8) (readOk pw8) (fun _ => some errEOF))).trace =
      ["Enter master password: ", "\n", "Confirm master password: ", "\n"] :=
  have h := C6_initialize_error_wrapped
    (mkWorld false (readOk pw8) (readOk pw8) (fun _ => some errEOF)) pw8 errEOF
    (by decide) rfl
  ⟨h.2.1, h.2.2.1, h.2.2.2⟩

/-- C8: with no vault present, if the first read fails with `e` the command
returns an error with message "failed to read password: " followed by the
message of `e`, wrapping `e`, after exactly one read, having written nothing
but the first prompt (so no confirmation prompt) and without calling
`vault.Initialize`; if the first read succeeds and the second fails with `e`,
it returns an error of the same form after two reads, having written the first
prompt, a newline and the confirmation prompt, and does not call
`vault.Initialize`. -/
theorem C8_read_error_wrapped (w : World) (e : GoError) (h0 : w.vault.Exists = false) :
    ((w.ReadPassword 0).err = some e →
      (RunE w).err.map GoError.Error = some ("failed to read password: " ++ e.Error) ∧
      (RunE w).err.bind GoError.Unwrap = some e ∧
      printed (RunE w).trace = ["Enter master password: "] ∧
      readCalls (RunE w).trace = 1 ∧
      initializeCalls (RunE w).trace = []) ∧
    ((w.ReadPassword 0).err = none → (w.ReadPassword 1).err = some e →
      (RunE w).err.map GoError.Error = some ("failed to read password: " ++ e.Error) ∧
      (RunE w).err.bind GoError.Unwrap = some e ∧
      printed (RunE w).trace =
        ["Enter master password: ", "\n", "Confirm master password: "] ∧
      readCalls (RunE w).trace = 2 ∧
      initializeCalls (RunE w).trace = []) := by
  constructor
  · intro h1
    rw [RunE_first_read_fails w e h0 h1]
    exact ⟨rfl, rfl, rfl, by simp [readCalls], by simp [initializeCalls]⟩
  · intro h1 h2
    rw [RunE_second_read_fails w e h0 h1 h2]
    exact ⟨rfl, rfl, rfl, by simp [readCalls], by simp [initializeCalls]⟩

theorem C8_read_error_wrapped_witness :
    ((RunE (mkWorld false (readErr errEOF) (readOk pw8) (fun _ => none))).err.map GoError.Error
        = some "failed to read password: EOF" ∧
      printed (RunE (mkWorld false (readErr errEOF) (readOk pw8) (fun _ => none))).trace
        = ["Enter master password: "] ∧
      readCalls (RunE (mkWorld false (readErr errEOF) (readOk pw8) (fun _ => none))).trace = 1) ∧
    ((RunE (mkWorld false (readOk pw8) (readErr errEOF) (fun _ => none))).err.map GoError.Error
        = some "failed to read password: EOF" ∧
      initializeCalls
        (RunE (mkWorld false (readOk pw8) (readErr errEOF) (fun _ => none))).trace = []) :=
  have ha := (C8_read_error_wrapped
    (mkWorld false (readErr errEOF) (readOk pw8) (fun _ => none)) errEOF rfl).1 rfl
  have hb := (C8_read_error_wrapped
    (mkWorld false (readOk pw8) (readErr errEOF) (fun _ => none)) errEOF rfl).2 rfl rfl
  ⟨⟨ha.1, ha.2.2.1, ha.2.2.2.1⟩, ⟨hb.1, hb.2.2.2.2⟩⟩

/-- C9: the command returns nil if and only if `vault.Exists()` returned false,
both reads succeeded, the entries are equal byte for byte, the entry is at least
8 bytes long and `vault.Initialize` returned nil; in the runs that return nil the
output is the two prompts (each followed by a newline) and then the two lines of
the success message in order, and in every other run the whole output is an
initial part of the two prompts with their newlines, so nothing of the success
message is written. -/
theorem C9_nil_iff_success (w : World) :
    ((RunE w).err = none ↔
      (w.vault.Exists = false ∧ (w.ReadPassword 0).err = none ∧
        (w.ReadPassword 1).err = none ∧ (w.ReadPassword 0).buf = (w.ReadPassword 1).buf ∧
        8 ≤ (w.ReadPassword 0).buf.length ∧
        w.vault.Initialize (w.ReadPassword 0).buf = none)) ∧
    (((RunE w).err = none ∧
        printed (RunE w).trace =
          ["Enter master password: ", "\n", "Confirm master password: ", "\n",
           lineInitialized, lineReady]) ∨
      ((RunE w).err ≠ none ∧
        printed (RunE w).trace ∈
          [[], ["Enter master password: "],
           ["Enter master password: ", "\n", "Confirm master password: "],
           ["Enter master password: ", "\n", "Confirm master password: ", "\n"]])) := by
  rcases RunE_cases w with h | ⟨h0, e, h1⟩ | ⟨h0, h1, e, h2⟩ | ⟨h0, h1, h2, hne⟩ |
    ⟨h0, h1, h2, heq, hlen⟩ | ⟨hr, e, hini⟩ | ⟨hr, hini⟩
  · rw [RunE_exists w h]
    exact ⟨by simp [h], Or.inr ⟨by simp, by simp [printed]⟩⟩
  · rw [RunE_first_read_fails w e h0 h1]
    exact ⟨by simp [h1], Or.inr ⟨by simp, by simp [printed]⟩⟩
  · rw [RunE_second_read_fails w e h0 h1 h2]
    exact ⟨by simp [h2], Or.inr ⟨by simp, by simp [printed]⟩⟩
  · rw [RunE_mismatch w h0 h1 h2 hne]
    exact ⟨by simp [hne], Or.inr ⟨by simp, by simp [printed]⟩⟩
  · rw [RunE_too_short w h0 h1 h2 heq hlen]
    refine ⟨?_, Or.inr ⟨by simp, by simp [printed]⟩⟩
    constructor
    · intro h; simp at h
    · intro h; omega
  · rw [RunE_initialize_fails w e hr.1 hr.2.1 hr.2.2.1 hr.2.2.2.1 hr.2.2.2.2 hini]
    exact ⟨by simp [hini], Or.inr ⟨by simp, by simp [printed]⟩⟩
  · rw [RunE_success w hr.1 hr.2.1 hr.2.2.1 hr.2.2.2.1 hr.2.2.2.2 hini]
    exact ⟨⟨fun _ => ⟨hr.1, hr.2.1, hr.2.2.1, hr.2.2.2.1, hr.2.2.2.2, hini⟩, fun _ => rfl⟩,
      Or.inl ⟨rfl, rfl⟩⟩

/-- C10: the length check counts bytes: for equal entries read successfully
with no vault present, the command returns
"password must be at least 8 characters long" if and only if the entry is
shorter than 8 bytes, and it calls `vault.Initialize` on the entry if and only
if the entry is at least 8 bytes long. -/
theorem C10_length_check_counts_bytes (w : World) (h0 : w.vault.Exists = false)
    (h1 : (w.ReadPassword 0).err = none) (h2 : (w.ReadPassword 1).err = none)
    (heq : (w.ReadPassword 0).buf = (w.ReadPassword 1).buf) :
    ((RunE w).err.map GoError.Error = some "password must be at least 8 characters long" ↔
      (w.ReadPassword 0).buf.length < 8) ∧
    (initializeCalls (RunE w).trace = [(w.ReadPassword 0).buf] ↔
      8 ≤ (w.ReadPassword 0).buf.length) := by
  by_cases hlen : (w.ReadPassword 0).buf.length < 8
  · rw [RunE_too_short w h0 h1 h2 heq hlen]
    refine ⟨⟨fun _ => hlen, fun _ => rfl⟩, ⟨fun h => ?_, fun h => ?_⟩⟩
    · simp [initializeCalls] at h
    · omega
  · have hge : 8 ≤ (w.ReadPassword 0).buf.length := Nat.le_of_not_lt hlen
    cases hini : w.vault.Initialize (w.ReadPassword 0).buf with
    | some e =>
      rw [RunE_initialize_fails w e h0 h1 h2 heq hge hini]
      refine ⟨⟨fun h => ?_, fun h => absurd h hlen⟩, ⟨fun _ => hge, fun _ => rfl⟩⟩
      simp only [ErrorfW, GoError.Error, Option.map_some', Option.some.injEq] at h
      exact absurd h (initialize_message_ne_length_message _)
    | none =>
      rw [RunE_success w h0 h1 h2 heq hge hini]
      refine ⟨⟨fun h => ?_, fun h => absurd h hlen⟩, ⟨fun _ => hge, fun _ => rfl⟩⟩
      simp at h

theorem C10_length_check_counts_bytes_witness :
    (initializeCalls (RunE (mkWorld false (readOk pw8) (readOk pw8) (fun _ => none))).trace
        = [pw8] ∧ pw8.length = 8) ∧
    ((RunE (mkWorld false (readOk pw7) (readOk pw7) (fun _ => none))).err.map GoError.Error
        = some "password must be at least 8 characters long" ∧ pw7.length = 7) ∧
    (RunE (mkWorld false (readOk []) (readOk []) (fun _ => none))).err.map GoError.Error
        = some "password must be at least 8 characters long" :=
  ⟨⟨(C10_length_check_counts_bytes (mkWorld false (readOk pw8) (readOk pw8) (fun _ => none))
      rfl rfl rfl rfl).2.2 (by decide), rfl⟩,
   ⟨(C10_length_check_counts_bytes (mkWorld false (readOk pw7) (readOk pw7) (fun _ => none))
      rfl rfl rfl rfl).1.2 (by decide), rfl⟩,
   (C10_length_check_counts_bytes (mkWorld false (readOk []) (readOk []) (fun _ => none))
      rfl rfl rfl rfl).1.2 (by decide)⟩

/-- C2: a password of seven characters is accepted when its UTF-8 encoding has
at least 8 bytes: for seven copies of U+00E9 (fourteen bytes), entered and
confirmed identically with no vault present, the command does not return the
length error but calls `vault.Initialize` with the seven-character password
and returns nil. -/
theorem C2_seven_characters_accepted :
    codePoints pwAccents = 7 ∧ pwAccents.length = 14 ∧
    (RunE (mkWorld false (readOk pwAccents) (readOk pwAccents) (fun _ => none))).err = none ∧
    initializeCalls
      (RunE (mkWorld false (readOk pwAccents) (readOk pwAccents) (fun _ => none))).trace
      = [pwAccents] := by
  refine ⟨by decide, by decide, ?_, ?_⟩
  · rw [RunE_success _ rfl rfl rfl rfl (by decide) rfl]
  · rw [RunE_success _ rfl rfl rfl rfl (by decide) rfl]
    rfl

/-- C4: on the error paths taken after a password has been read the buffers are
returned as entered, not zeroed: after a mismatch, after the length error,
after a failure of `vault.Initialize` and after a failure of the second read
the password buffer still holds the entered bytes. -/
theorem C4_error_paths_keep_password :
    ((RunE (mkWorld false (readOk pwAbc) (readOk pwAbd) (fun _ => none))).err
        = some (Errorf "passwords do not match") ∧
      (RunE (mkWorld false (readOk pwAbc) (readOk pwAbd) (fun _ => none))).password
        = some [97, 98, 99] ∧
      (RunE (mkWorld false (readOk pwAbc) (readOk pwAbd) (fun _ => none))).confirmPassword
        = some [97, 98, 100]) ∧
    ((RunE (mkWorld false (readOk pw7) (readOk pw7) (fun _ => none))).err
        = some (Errorf "password must be at least 8 characters long") ∧
      (RunE (mkWorld false (readOk pw7) (readOk pw7) (fun _ => none))).password
        = some [97, 98, 99, 100, 101, 102, 103]) ∧
    ((RunE (mkWorld false (readOk pw8) (readOk pw8) (fun _ => some errEOF))).err
        = some (ErrorfW "failed to initialize vault: " errEOF) ∧
      (RunE (mkWorld false (readOk pw8) (readOk pw8) (fun _ => some errEOF))).password
        = some [97, 98, 99, 100, 101, 102, 103, 104]) ∧
    ((RunE (mkWorld false (readOk pw8) (readErr errEOF) (fun _ => none))).err
        = some (ErrorfW "failed to read password: " errEOF) ∧
      (RunE (mkWorld false (readOk pw8) (readErr errEOF) (fun _ => none))).password
        = some [97, 98, 99, 100, 101, 102, 103, 104]) := by
  refine ⟨?_, ?_, ?_, ?_⟩
  · rw [RunE_mismatch _ rfl rfl rfl (by decide)]
    exact ⟨rfl, rfl, rfl⟩
  · rw [RunE_too_short _ rfl rfl rfl rfl (by decide)]
    exact ⟨rfl, rfl⟩
  · rw [RunE_initialize_fails _ errEOF rfl rfl rfl rfl (by decide) rfl]
    exact ⟨rfl, rfl⟩
  · rw [RunE_second_read_fails _ errEOF rfl rfl rfl]
    exact ⟨rfl, rfl⟩

end Uzp
